import Mathlib

/-!
Shallow embedding of the flight-log-to-geospatial-track conversion core of
the px4-simulation-configurator repository (src/sim.py and src/v3.py).

Numeric values are modelled as rationals (the Python code works with IEEE
doubles; all claims under study are about control flow, ordering and
exact-value propagation, not rounding).  A numeric value read from the
binary log is either a finite number or a non-finite one (NaN/Inf), which
is all `_fallback_ulog_to_kml`'s helper `f` distinguishes.
-/

/-- A value stored in a ULog topic field: a finite number or NaN/Inf
(non-finite, which the converter's helper `f` maps to `None`). -/
inductive LogVal where
  | fin (q : ℚ)
  | nonfin
deriving DecidableEq

/-- Embeds the helper `f(x, s)` of `_fallback_ulog_to_kml` (src/sim.py:157-160):
`float(x)/s` when the result is finite, `None` otherwise. -/
def pyf : LogVal → ℚ → Option ℚ
  | .fin q, s => some (q / s)
  | .nonfin, _ => none

/-- The data dictionary of one ULog topic: `rec.get("lat")`, `rec.get("lon")`,
`rec.get("alt")` (src/sim.py:150,154); a field may be absent. -/
structure TopicRec where
  lat : Option (List LogVal)
  lon : Option (List LogVal)
  alt : Option (List LogVal)

/-- One entry of `ulog.data_list`: a named topic with its data record. -/
structure Topic where
  name : String
  data : TopicRec

/-- The altitude used for sample `i`
(src/sim.py:164,166: `al=f(alt[i]) if alt is not None else 0.0` and then
`if al is None: al=0.0`). -/
def altAt (alt : Option (List LogVal)) (i : Nat) : ℚ :=
  match alt with
  | none => 0
  | some arr =>
    match pyf (arr.getD i .nonfin) 1 with
    | some v => v
    | none => 0

/-- The downsampling loop of `_fallback_ulog_to_kml` (src/sim.py:161-167),
with `rem` iterations left, current index `i` and the index `last` of the
last appended sample (initially `-downsample`).  A visited sample whose
latitude or longitude is non-finite is dropped without updating `last`. -/
def strideAux (lat lon : List LogVal) (alt : Option (List LogVal)) (scale : ℚ)
    (ds : Nat) : Nat → Nat → Int → List (ℚ × ℚ × ℚ)
  | 0, _, _ => []
  | rem + 1, i, last =>
    if (i : ℤ) - last < (ds : ℤ) then
      strideAux lat lon alt scale ds rem (i + 1) last
    else
      match pyf (lat.getD i .nonfin) scale, pyf (lon.getD i .nonfin) scale with
      | some la, some lo =>
          (lo, la, altAt alt i) :: strideAux lat lon alt scale ds rem (i + 1) (i : ℤ)
      | _, _ => strideAux lat lon alt scale ds rem (i + 1) last

/-- The full downsampling pass over a topic's sample arrays:
`coords=[]; last=-downsample; for i in range(len(lat)): ...`
(src/sim.py:161-167). -/
def strideCoords (lat lon : List LogVal) (alt : Option (List LogVal)) (scale : ℚ)
    (ds : Nat) : List (ℚ × ℚ × ℚ) :=
  strideAux lat lon alt scale ds lat.length 0 (-(ds : ℤ))

/-- The two failure modes of the fallback converter: the
`RuntimeError("No GPS/global position topics found in ULog.")` raise
(src/sim.py:155) and the `RuntimeError("No valid GPS samples extracted from
ULog.")` raise (src/sim.py:168). -/
inductive DecodeErr where
  | noPositionTopic
  | emptyTrack
deriving DecidableEq

/-- The KML line-string written by the fallback tier (src/sim.py:169-172):
name, coordinate list, absolute altitude mode, tessellation, line width. -/
structure KmlLine where
  name : String
  coords : List (ℚ × ℚ × ℚ)
  altitudeAbsolute : Bool
  tessellate : Bool
  width : Nat
deriving DecidableEq

/-- The line-string the fallback tier builds for a track
(src/sim.py:169-171: absolute altitude mode, tessellate=1, width 4). -/
def mkFallbackKml (nm : String) (cs : List (ℚ × ℚ × ℚ)) : KmlLine :=
  ⟨nm, cs, true, true, 4⟩

/-- The topic-search loop `for d in ulog.data_list: if d.name==nm: ...; break`
(src/sim.py:148-150 and 152-154). -/
def findTopic (nm : String) : List Topic → Option TopicRec
  | [] => none
  | d :: rest => if d.name = nm then some d.data else findTopic nm rest

/-- The topic selection of `_fallback_ulog_to_kml` (src/sim.py:147-154):
`vehicle_global_position` first with scale 1, else `vehicle_gps_position`
with scale `1e7`. -/
def selRec (dl : List Topic) : Option (TopicRec × ℚ) :=
  match findTopic "vehicle_global_position" dl with
  | some rec => some (rec, 1)
  | none => (findTopic "vehicle_gps_position" dl).map (fun rec => (rec, (10 : ℚ) ^ 7))

/-- Decoding of the selected topic record (src/sim.py:155-172): missing
`lat`/`lon` arrays raise the no-position-topic error, an empty downsampled
coordinate list raises the empty-track error, otherwise the KML line-string
is built and saved. -/
def decodeRec (rec : TopicRec) (scale : ℚ) (nm : String) (ds : Nat) :
    Except DecodeErr KmlLine :=
  match rec.lat, rec.lon with
  | some latA, some lonA =>
    let coords := strideCoords latA lonA rec.alt scale ds
    if coords.isEmpty then .error .emptyTrack else .ok (mkFallbackKml nm coords)
  | _, _ => .error .noPositionTopic

/-- The whole of `_fallback_ulog_to_kml` (src/sim.py:143-172) on an already
opened log, given its `data_list`, the output base name and the downsample
stride.  An `Except.error` models a raised `RuntimeError` (no file is
written in that case); `Except.ok` carries the saved line-string. -/
def fallbackUlogToKml (dl : List Topic) (nm : String) (ds : Nat) :
    Except DecodeErr KmlLine :=
  match selRec dl with
  | none => .error .noPositionTopic
  | some (rec, scale) => decodeRec rec scale nm ds

/-- The coordinate-swap heuristic of `_import_coords`
(src/sim.py:508-510, src/v3.py:1113-1116): `if lat<lon: lat,lon=lon,lat`
plus one informational log line.  Returns the final pair and the number of
swap notices emitted. -/
def importSwap (lat lon : ℚ) : (ℚ × ℚ) × Nat :=
  if lat < lon then ((lon, lat), 1) else ((lat, lon), 0)

/-- The candidate name `stem-i.suffix` built by `_unique_name`
(src/sim.py:737, src/v3.py:1367). -/
def candName (stem suf : String) (i : Nat) : String :=
  stem ++ "-" ++ toString i ++ suf

/-- The unbounded `while True` search of `_unique_name` (src/sim.py:736-739,
src/v3.py:1366-1370), with explicit fuel standing for the unbounded loop
(`none` models non-termination, impossible on a finite directory). -/
def uniqueLoop (existing : List String) (stem suf : String) :
    Nat → Nat → Option String
  | 0, _ => none
  | fuel + 1, i =>
    let cand := candName stem suf i
    if cand ∈ existing then uniqueLoop existing stem suf fuel (i + 1)
    else some cand

/-- Embedding of `_unique_name` (src/sim.py:733-739, src/v3.py:1361-1370): the directory
contents are modelled as the list of names for which `Path.exists()` holds;
`base = stem ++ suf` is returned if free, else the suffixed search runs. -/
def uniqueName (existing : List String) (stem suf : String) (fuel : Nat) :
    Option String :=
  let base := stem ++ suf
  if base ∈ existing then uniqueLoop existing stem suf fuel 1 else some base

/-- Python `str.strip()`: drop whitespace from both ends of the character
list. -/
def trimChars (cs : List Char) : List Char :=
  ((cs.dropWhile Char.isWhitespace).reverse.dropWhile Char.isWhitespace).reverse

/-- Python `str.split(sep)`-style splitting of a character list at every
character satisfying `p`, keeping empty pieces. -/
def splitPred (p : Char → Bool) : List Char → List (List Char)
  | [] => [[]]
  | c :: cs =>
    let r := splitPred p cs
    if p c then [] :: r
    else
      match r with
      | h :: t => (c :: h) :: t
      | [] => [[c]]

/-- Python `str.split(",")` (and `"."`): split at a separator character,
keeping empty pieces. -/
def splitChar (sep : Char) (cs : List Char) : List (List Char) :=
  splitPred (fun c => c = sep) cs

/-- Python `str.split()` with no argument: whitespace runs separate the
tokens and no empty token is produced (so a preceding `.strip()` is
absorbed). -/
def splitWs (cs : List Char) : List (List Char) :=
  (splitPred Char.isWhitespace cs).filter (fun t => !t.isEmpty)

/-- Decimal value of a digit list (most significant first). -/
def digitsToNat (cs : List Char) : Nat :=
  cs.foldl (fun a c => a * 10 + (c.toNat - 48)) 0

/-- Unsigned part of Python `float(str)`, modelled for plain decimal
notation `digits[.digits]` (the only shape the planning files carry):
other shapes (exponents, inf/nan) are mapped to parse failure. -/
def parseUnsignedQ (cs : List Char) : Option ℚ :=
  match splitChar '.' cs with
  | [a] =>
    if !a.isEmpty && a.all Char.isDigit then some ((digitsToNat a : ℚ))
    else none
  | [a, b] =>
    if (!a.isEmpty || !b.isEmpty) && a.all Char.isDigit && b.all Char.isDigit
    then some ((digitsToNat a : ℚ) + (digitsToNat b : ℚ) / (10 : ℚ) ^ b.length)
    else none
  | _ => none

/-- Python `float` on a character list: strip surrounding whitespace,
optional sign, decimal literal; `none` models a raised `ValueError`. -/
def pyFloatChars (cs : List Char) : Option ℚ :=
  match trimChars cs with
  | '-' :: rest => (parseUnsignedQ rest).map (fun q => -q)
  | '+' :: rest => parseUnsignedQ rest
  | t => parseUnsignedQ t

/-- Python `float(str)` on a string value. -/
def pyFloat (s : String) : Option ℚ :=
  pyFloatChars s.data

/-- A JSON value as far as `_coords_from_plan` inspects one: a number, a
string, or an array (`float()` of an array raises). -/
inductive PyVal where
  | num (q : ℚ)
  | str (s : String)
  | arr (l : List PyVal)

/-- Python `float(v)` on a JSON-decoded value: numbers convert exactly,
strings go through `float(str)`, lists raise `TypeError` (`none`). -/
def pyFloatVal : PyVal → Option ℚ
  | .num q => some q
  | .str s => pyFloat s
  | .arr _ => none

/-- One entry of `mission.items` with its optional `param5`/`param6`
fields (src/sim.py:583-585, src/v3.py:1044-1046). -/
structure PlanItem where
  param5 : Option PyVal
  param6 : Option PyVal

/-- The parts of a Schema-A planning document read by `_coords_from_plan`:
`mission.items` and `mission.plannedHomePosition`. -/
structure PlanMission where
  items : List PlanItem
  plannedHomePosition : Option PyVal

/-- The membership test `"param5" in it and "param6" in it`
(src/sim.py:584). -/
def hasBoth (it : PlanItem) : Bool :=
  it.param5.isSome && it.param6.isSome

/-- Conversion `(float(it["param5"]), float(it["param6"]))` (src/sim.py:585); `none`
models a conversion exception escaping to the enclosing `try`. -/
def convBoth (it : PlanItem) : Option (ℚ × ℚ) :=
  match it.param5, it.param6 with
  | some a, some b =>
    match pyFloatVal a, pyFloatVal b with
    | some x, some y => some (x, y)
    | _, _ => none
  | _, _ => none

/-- The scan `for it in data.get("mission",...).get("items",...)` over mission items
(src/sim.py:583-585): `none` when no item carries both fields (the loop
completes), `some none` when the first such item's conversion raises
(aborting the whole `try` block), `some (some p)` on a successful return. -/
def scanItems : List PlanItem → Option (Option (ℚ × ℚ))
  | [] => none
  | it :: rest => if hasBoth it then some (convBoth it) else scanItems rest

/-- The `plannedHomePosition` fallback (src/sim.py:587-591): a list value of
length at least two whose first two entries convert; every failure inside
the `try` is swallowed into `(None, None)`. -/
def phpCoords : Option PyVal → Option (ℚ × ℚ)
  | some (.arr (v0 :: v1 :: _)) =>
    (match pyFloatVal v0, pyFloatVal v1 with
     | some a, some b => some (a, b)
     | _, _ => none)
  | _ => none

/-- Embedding of `_coords_from_plan` (src/sim.py:580-592, identical in src/v3.py:1041-1055):
first-waypoint scan, then planned-home fallback, else `(None, None)`. -/
def coordsFromPlan (m : PlanMission) : Option (ℚ × ℚ) :=
  match scanItems m.items with
  | some (some p) => some p
  | _ => phpCoords m.plannedHomePosition

/-- An XML element as ElementTree presents it: fully-qualified tag,
optional text, child elements. -/
inductive Xml where
  | elem (tag : String) (text : Option String) (children : List Xml)

/-- Tag of an element. -/
def Xml.tag : Xml → String
  | .elem t _ _ => t

/-- Text of an element. -/
def Xml.text : Xml → Option String
  | .elem _ x _ => x

/-- Children of an element. -/
def Xml.children : Xml → List Xml
  | .elem _ _ c => c

mutual

/-- Document-order traversal of an element and its descendants, as
`elem.iter()` yields them. -/
def Xml.preorder : Xml → List Xml
  | .elem t x cs => .elem t x cs :: preorderList cs

/-- Document-order traversal of a forest of elements. -/
def preorderList : List Xml → List Xml
  | [] => []
  | c :: cs => c.preorder ++ preorderList cs

end

/-- The fully-qualified tag ElementTree gives a `kml:Point` element. -/
def kmlPointTag : String := "\x7bhttp://www.opengis.net/kml/2.2\x7dPoint"

/-- The fully-qualified tag of a `kml:coordinates` element. -/
def kmlCoordinatesTag : String := "\x7bhttp://www.opengis.net/kml/2.2\x7dcoordinates"

/-- Lookup `root.find(".//kml:Point", ns)` (src/sim.py:571, src/v3.py:1022): the
first descendant of the root, in document order, with the Point tag. -/
def findPointElem (root : Xml) : Option Xml :=
  (preorderList root.children).find? (fun e => e.tag = kmlPointTag)

/-- Whether the first character list starts the second one. -/
def startsWith : List Char → List Char → Bool
  | [], _ => true
  | _ :: _, [] => false
  | n :: ns, h :: hs => n == h && startsWith ns hs

/-- Contiguous-substring test on character lists. -/
def infixOf (needle : List Char) : List Char → Bool
  | [] => needle.isEmpty
  | h :: hs => startsWith needle (h :: hs) || infixOf needle hs

/-- Python `needle in hay` on strings: contiguous-substring test on the
character lists. -/
def strContains (hay needle : String) : Bool :=
  infixOf needle.data hay.data

/-- The Point branch shared by both `_coords_from_kml` variants
(src/sim.py:573-578, src/v3.py:1031-1039): direct `kml:coordinates` child,
falsy text short-circuits, `strip().split()[0]` (whose IndexError on
whitespace-only text is uncaught: `.error ()`), comma split, float parses
(failures inside the `try` give `(None, None)`). -/
def pointCoords (pt : Xml) : Except Unit (Option (ℚ × ℚ)) :=
  match pt.children.find? (fun e => e.tag = kmlCoordinatesTag) with
  | none => .ok none
  | some el =>
    match el.text with
    | none => .ok none
    | some s =>
      if s.data.isEmpty then .ok none
      else
        match splitWs s.data with
        | [] => .error ()
        | first :: _ =>
          match splitChar ',' first with
          | lo :: la :: _ =>
            (match pyFloatChars la, pyFloatChars lo with
             | some a, some o => .ok (some (a, o))
             | _, _ => .ok none)
          | _ => .ok none

/-- Embedding of `_coords_from_kml` of src/sim.py:569-578: Point lookup only; a missing
Point element reports `(None, None)` at once. -/
def coordsFromKmlSim (root : Xml) : Except Unit (Option (ℚ × ℚ)) :=
  match findPointElem root with
  | none => .ok none
  | some pt => pointCoords pt

/-- The `for elem in root.iter()` scan of src/v3.py:1024-1028: first element
whose tag contains "coordinates" and whose text is truthy and splits on
commas into at least two parts returns the parsed pair; a float failure
there is uncaught (`.error ()`); otherwise the loop continues, and its
completion falls through to `(None, None)`. -/
def scanCoordElems : List Xml → Except Unit (Option (ℚ × ℚ))
  | [] => .ok none
  | e :: rest =>
    if strContains e.tag "coordinates" && !(e.text.getD "").data.isEmpty then
      match splitChar ',' (trimChars (e.text.getD "").data) with
      | p0 :: p1 :: _ =>
        (match pyFloatChars p1, pyFloatChars p0 with
         | some a, some o => .ok (some (a, o))
         | _, _ => .error ())
      | _ => scanCoordElems rest
    else scanCoordElems rest

/-- Embedding of `_coords_from_kml` of src/v3.py:1019-1039: Point lookup, with the
coordinates-tag scan as the fallback when no Point element exists. -/
def coordsFromKmlV3 (root : Xml) : Except Unit (Option (ℚ × ℚ)) :=
  match findPointElem root with
  | some pt => pointCoords pt
  | none => scanCoordElems root.preorder

/-- Whether the v3 scan stops at this element (tag contains "coordinates",
truthy text, at least two comma-separated parts). -/
def scanHit (e : Xml) : Bool :=
  (strContains e.tag "coordinates" && !(e.text.getD "").data.isEmpty) &&
    2 ≤ (splitChar ',' (trimChars (e.text.getD "").data)).length

/-- Projection of a track sample to its (lon, lat) part, forgetting the
altitude channel. -/
def dropAlt (t : ℚ × ℚ × ℚ) : ℚ × ℚ := (t.1, t.2.1)

/-! ## Helper lemmas -/

lemma getD_map_fin (l : List ℚ) (i : Nat) (h : i < l.length) :
    (l.map LogVal.fin).getD i LogVal.nonfin = LogVal.fin (l.getD i 0) := by
  induction l generalizing i with
  | nil => simp at h
  | cons x xs ih =>
    cases i with
    | zero => simp
    | succ n =>
      simp only [List.map_cons, List.getD_cons_succ]
      exact ih n (by simpa using h)

lemma getD_all_nonfin (arr : List LogVal) (i : Nat)
    (h : ∀ v ∈ arr, v = LogVal.nonfin) : arr.getD i LogVal.nonfin = LogVal.nonfin := by
  induction arr generalizing i with
  | nil => simp
  | cons v vs ih =>
    cases i with
    | zero => simpa using h v (by simp)
    | succ n =>
      simp only [List.getD_cons_succ]
      exact ih n (fun u hu => h u (by simp [hu]))

lemma altAt_of_nonfin (arr : List LogVal) (i : Nat)
    (h : ∀ v ∈ arr, v = LogVal.nonfin) : altAt (some arr) i = 0 := by
  simp only [altAt]
  rw [getD_all_nonfin arr i h]
  rfl

lemma findTopic_eq (nm : String) (dl : List Topic) :
    findTopic nm dl = (dl.find? (fun d => d.name = nm)).map Topic.data := by
  induction dl with
  | nil => rfl
  | cons d rest ih =>
    rw [findTopic, List.find?_cons]
    by_cases h : d.name = nm
    · simp [h]
    · simp [h, ih]

lemma scanItems_drop (pre rest : List PlanItem)
    (h : ∀ j ∈ pre, hasBoth j = false) :
    scanItems (pre ++ rest) = scanItems rest := by
  induction pre with
  | nil => rfl
  | cons it pre ih =>
    have h0 := h it (by simp)
    simp only [List.cons_append, scanItems, h0, Bool.false_eq_true, if_false]
    exact ih (fun j hj => h j (by simp [hj]))

lemma scanCoordElems_drop (pre rest : List Xml)
    (h : ∀ x ∈ pre, scanHit x = false) :
    scanCoordElems (pre ++ rest) = scanCoordElems rest := by
  induction pre with
  | nil => rfl
  | cons e pre ih =>
    have h0 := h e (by simp)
    have ih' := ih (fun x hx => h x (by simp [hx]))
    by_cases hc : (strContains e.tag "coordinates" && !(e.text.getD "").data.isEmpty) = true
    · have hlen : ¬ 2 ≤ (splitChar ',' (trimChars (e.text.getD "").data)).length := by
        intro hge
        rw [scanHit, hc] at h0
        simp at h0
        omega
      cases hp : splitChar ',' (trimChars (e.text.getD "").data) with
      | nil => simp [scanCoordElems, hc, hp, ih']
      | cons p0 t =>
        cases t with
        | nil => simp [scanCoordElems, hc, hp, ih']
        | cons p1 t2 =>
          exfalso
          apply hlen
          rw [hp]
          simp only [List.length_cons]
          omega
    · simp only [Bool.not_eq_true] at hc
      simp [scanCoordElems, hc, ih']

lemma uniqueLoop_spec (existing : List String) (stem suf : String) :
    ∀ fuel i r, uniqueLoop existing stem suf fuel i = some r →
      r ∉ existing ∧ ∃ k, i ≤ k ∧ r = candName stem suf k ∧
        ∀ j, i ≤ j → j < k → candName stem suf j ∈ existing := by
  intro fuel
  induction fuel with
  | zero => intro i r h; simp [uniqueLoop] at h
  | succ fuel ih =>
    intro i r h
    rw [uniqueLoop] at h
    by_cases hc : candName stem suf i ∈ existing
    · rw [if_pos hc] at h
      obtain ⟨hr, k, hik, hrk, hall⟩ := ih (i + 1) r h
      refine ⟨hr, k, by omega, hrk, fun j hij hjk => ?_⟩
      rcases Nat.eq_or_lt_of_le hij with hji | hji
      · exact hji ▸ hc
      · exact hall j hji hjk
    · rw [if_neg hc] at h
      obtain rfl := Option.some.inj h
      exact ⟨hc, i, le_refl i, rfl, fun j h1 h2 => absurd (lt_of_le_of_lt h1 h2) (lt_irrefl i)⟩

lemma strideAux_alt_proj (lat lon : List LogVal) (altA altB : Option (List LogVal))
    (scale : ℚ) (ds : Nat) :
    ∀ rem i last,
      (strideAux lat lon altA scale ds rem i last).map dropAlt
        = (strideAux lat lon altB scale ds rem i last).map dropAlt := by
  intro rem
  induction rem with
  | zero => intro i last; simp [strideAux]
  | succ n ih =>
    intro i last
    by_cases hlt : (i : ℤ) - last < (ds : ℤ)
    · simp only [strideAux, if_pos hlt]
      exact ih (i + 1) last
    · simp only [strideAux, if_neg hlt]
      cases hla : pyf (lat.getD i .nonfin) scale with
      | none => cases hlo : pyf (lon.getD i .nonfin) scale <;> exact ih (i + 1) last
      | some la =>
        cases hlo : pyf (lon.getD i .nonfin) scale with
        | none => exact ih (i + 1) last
        | some lo => simp [dropAlt, ih (i + 1) i]

lemma strideAux_alt_none (lat lon : List LogVal) (altA : List LogVal)
    (scale : ℚ) (ds : Nat) (h : ∀ v ∈ altA, v = LogVal.nonfin) :
    ∀ rem i last,
      strideAux lat lon (some altA) scale ds rem i last
        = strideAux lat lon none scale ds rem i last := by
  intro rem
  induction rem with
  | zero => intro i last; simp [strideAux]
  | succ n ih =>
    intro i last
    by_cases hlt : (i : ℤ) - last < (ds : ℤ)
    · simp only [strideAux, if_pos hlt]
      exact ih (i + 1) last
    · simp only [strideAux, if_neg hlt]
      cases hla : pyf (lat.getD i .nonfin) scale with
      | none => cases hlo : pyf (lon.getD i .nonfin) scale <;> exact ih (i + 1) last
      | some la =>
        cases hlo : pyf (lon.getD i .nonfin) scale with
        | none => exact ih (i + 1) last
        | some lo =>
          have halt : altAt (some altA) i = altAt none i := by
            rw [altAt_of_nonfin altA i h]
            rfl
          rw [halt, ih (i + 1) i]

lemma strideAux_length_fin (qlat qlon : List ℚ) (alt : Option (List LogVal))
    (scale : ℚ) (ds : Nat) (hds : 1 ≤ ds) (hlen : qlat.length ≤ qlon.length) :
    ∀ (rem i : Nat) (last : ℤ) (k : Nat),
      k + 1 ≤ ds → (i : ℤ) - last = (ds : ℤ) - (k : ℤ) →
      i + rem = qlat.length →
      (strideAux (qlat.map LogVal.fin) (qlon.map LogVal.fin) alt scale ds rem i last).length
        = (rem + ds - 1 - k) / ds := by
  intro rem
  induction rem with
  | zero =>
    intro i last k hk hgap hiN
    simp only [strideAux, List.length_nil]
    symm
    apply Nat.div_eq_of_lt
    omega
  | succ n ih =>
    intro i last k hk hgap hiN
    by_cases hk0 : k = 0
    · subst hk0
      have hcond : ¬ (i : ℤ) - last < (ds : ℤ) := by omega
      have hilt : i < qlat.length := by omega
      have hilt2 : i < qlon.length := by omega
      simp only [strideAux, if_neg hcond, getD_map_fin qlat i hilt,
        getD_map_fin qlon i hilt2, pyf, List.length_cons]
      rw [ih (i + 1) i (ds - 1) (by omega) (by omega) (by omega)]
      have h1 : n + ds - 1 - (ds - 1) = n := by omega
      have h2 : n + 1 + ds - 1 - 0 = n + ds := by omega
      rw [h1, h2, Nat.add_div_right _ (by omega)]
    · have hcond : (i : ℤ) - last < (ds : ℤ) := by omega
      simp only [strideAux, if_pos hcond]
      rw [ih (i + 1) last (k - 1) (by omega) (by omega) (by omega)]
      congr 1
      omega

/-! ## Claim C1 -/

/-- C1 counterexample: the swap heuristic does not compare magnitudes.  At
`lat = -10`, `lon = 5` the magnitudes satisfy `|lat| >= |lon|`, so the claim
predicts the pair is returned unmodified with no notice, but `_import_coords`
compares the signed values (`if lat<lon`), swaps, and emits one notice. -/
theorem importSwap_magnitude_counterexample :
    |(-10 : ℚ)| ≥ |(5 : ℚ)| ∧ importSwap (-10) 5 = ((5, -10), 1) ∧
      importSwap (-10) 5 ≠ (((-10 : ℚ), (5 : ℚ)), 0) := by
  refine ⟨by norm_num, by norm_num [importSwap], ?_⟩
  norm_num [importSwap]

/-- C1 amended: the swap heuristic compares the signed values.  The returned
latitude is the larger and the returned longitude the smaller of the two
inputs, exactly one informational swap notice is emitted when `lat < lon`,
and none otherwise. -/
theorem importSwap_signed_swap (lat lon : ℚ) :
    (importSwap lat lon).1 = (max lat lon, min lat lon) ∧
    ((importSwap lat lon).2 = 1 ↔ lat < lon) ∧
    ((importSwap lat lon).2 = 0 ↔ lon ≤ lat) := by
  by_cases h : lat < lon
  · simp [importSwap, h, max_eq_right h.le, min_eq_left h.le, not_le.mpr h]
  · have h' := not_lt.mp h
    simp [importSwap, h, max_eq_left h', min_eq_right h', h']

/-! ## Claim C2 -/

/-- C2 counterexample: a 12-sample global-position topic with non-finite
longitude at index 5, stride 5.  The claim predicts the Track holds the
samples of indices 0 and 10; the code instead keeps indices 0, 6 and 11,
because skipping the invalid sample at index 5 leaves `last` unchanged and
makes index 6 immediately eligible. -/
theorem fallback_stride_indices_counterexample :
    strideCoords
        [.fin 0, .fin 1, .fin 2, .fin 3, .fin 4, .fin 5,
         .fin 6, .fin 7, .fin 8, .fin 9, .fin 10, .fin 11]
        [.fin 100, .fin 101, .fin 102, .fin 103, .fin 104, .nonfin,
         .fin 106, .fin 107, .fin 108, .fin 109, .fin 110, .fin 111]
        (some [.fin 20, .fin 21, .fin 22, .fin 23, .fin 24, .fin 25,
               .fin 26, .fin 27, .fin 28, .fin 29, .fin 30, .fin 31]) 1 5
      = [(100, 0, 20), (106, 6, 26), (111, 11, 31)] ∧
    strideCoords
        [.fin 0, .fin 1, .fin 2, .fin 3, .fin 4, .fin 5,
         .fin 6, .fin 7, .fin 8, .fin 9, .fin 10, .fin 11]
        [.fin 100, .fin 101, .fin 102, .fin 103, .fin 104, .nonfin,
         .fin 106, .fin 107, .fin 108, .fin 109, .fin 110, .fin 111]
        (some [.fin 20, .fin 21, .fin 22, .fin 23, .fin 24, .fin 25,
               .fin 26, .fin 27, .fin 28, .fin 29, .fin 30, .fin 31]) 1 5
      ≠ [(100, 0, 20), (110, 10, 30)] := by
  constructor
  · norm_num [strideCoords, strideAux, pyf, altAt]
  · norm_num [strideCoords, strideAux, pyf, altAt]

/-- C2 amended: skipping a visited sample with invalid longitude does not
advance the stride anchor `last`, so the very next index becomes eligible.
With 12 samples, stride 5, and non-finite longitude at index 5, the visited
indices are 0, 5, 6, 11 and the Track holds exactly the samples of indices
0, 6 and 11; index 10 is never visited, so its value is irrelevant. -/
theorem fallback_stride_skip_shifts_indices
    (la0 la1 la2 la3 la4 la5 la6 la7 la8 la9 la10 la11 : ℚ)
    (a0 a1 a2 a3 a4 a5 a6 a7 a8 a9 a10 a11 : ℚ)
    (lo0 lo1 lo2 lo3 lo4 lo6 lo7 lo8 lo9 lo11 : ℚ) (v10 : LogVal) :
    strideCoords
        [.fin la0, .fin la1, .fin la2, .fin la3, .fin la4, .fin la5,
         .fin la6, .fin la7, .fin la8, .fin la9, .fin la10, .fin la11]
        [.fin lo0, .fin lo1, .fin lo2, .fin lo3, .fin lo4, .nonfin,
         .fin lo6, .fin lo7, .fin lo8, .fin lo9, v10, .fin lo11]
        (some [.fin a0, .fin a1, .fin a2, .fin a3, .fin a4, .fin a5,
               .fin a6, .fin a7, .fin a8, .fin a9, .fin a10, .fin a11]) 1 5
      = [(lo0, la0, a0), (lo6, la6, a6), (lo11, la11, a11)] := by
  norm_num [strideCoords, strideAux, pyf, altAt]

/-! ## Claim C3 -/

/-- C3: a log whose selected topic is the global-position one (scale 1) with
all-finite latitude and longitude arrays converts to a saved line-string
whose coordinate list is exactly the in-memory downsampled track, and that
track has at most (in fact exactly) `ceil(N/S)` samples. -/
theorem fallback_track_length_and_output
    (dl : List Topic) (nm : String) (ds : Nat) (rec : TopicRec)
    (qlat qlon : List ℚ)
    (hsel : selRec dl = some (rec, 1))
    (hlat : rec.lat = some (qlat.map LogVal.fin))
    (hlon : rec.lon = some (qlon.map LogVal.fin))
    (hds : 1 ≤ ds) (hlen : qlat.length ≤ qlon.length) (hN : 1 ≤ qlat.length) :
    fallbackUlogToKml dl nm ds
        = .ok (mkFallbackKml nm
            (strideCoords (qlat.map LogVal.fin) (qlon.map LogVal.fin) rec.alt 1 ds)) ∧
    (strideCoords (qlat.map LogVal.fin) (qlon.map LogVal.fin) rec.alt 1 ds).length
        ≤ (qlat.length + ds - 1) / ds := by
  have hlength :
      (strideCoords (qlat.map LogVal.fin) (qlon.map LogVal.fin) rec.alt 1 ds).length
        = (qlat.length + ds - 1) / ds := by
    have := strideAux_length_fin qlat qlon rec.alt 1 ds hds hlen
      qlat.length 0 (-(ds : ℤ)) 0 (by omega) (by push_cast; ring) (by omega)
    rw [strideCoords, List.length_map]
    rw [this, Nat.sub_zero]
  have hpos : 1 ≤ (qlat.length + ds - 1) / ds := by
    rw [Nat.one_le_div_iff (by omega)]
    omega
  have hne :
      (strideCoords (qlat.map LogVal.fin) (qlon.map LogVal.fin) rec.alt 1 ds).isEmpty
        = false := by
    cases hcs : strideCoords (qlat.map LogVal.fin) (qlon.map LogVal.fin) rec.alt 1 ds with
    | nil => rw [hcs] at hlength; simp at hlength; omega
    | cons x xs => simp
  refine ⟨?_, le_of_eq hlength⟩
  simp only [fallbackUlogToKml, hsel, decodeRec, hlat, hlon, hne]
  simp

/-! ## Claim C4 -/

/-- C4: the fallback converter reads exactly one position topic: the first
`vehicle_global_position` entry of the data list (values used with scale 1)
when one exists, otherwise the first `vehicle_gps_position` entry with
latitude/longitude descaled by `1e7`; when neither topic is present it
raises the no-position-topic error and returns no track. -/
theorem fallback_topic_selection (dl : List Topic) (nm : String) (ds : Nat) :
    fallbackUlogToKml dl nm ds =
      match dl.find? (fun d => d.name = "vehicle_global_position") with
      | some d => decodeRec d.data 1 nm ds
      | none =>
        match dl.find? (fun d => d.name = "vehicle_gps_position") with
        | some d => decodeRec d.data ((10 : ℚ) ^ 7) nm ds
        | none => .error .noPositionTopic := by
  rw [fallbackUlogToKml, selRec, findTopic_eq, findTopic_eq]
  cases h1 : dl.find? (fun d => d.name = "vehicle_global_position") with
  | some d => rfl
  | none =>
    cases h2 : dl.find? (fun d => d.name = "vehicle_gps_position") with
    | some d => rfl
    | none => rfl

/-! ## Claim C5 -/

/-- C5: when a position topic is selected but every sample is filtered out
by the downsampling/finiteness pass, the fallback tier fails with the
empty-track error; the error branch carries no line-string, so no track
file is written. -/
theorem fallback_empty_track_failure
    (dl : List Topic) (nm : String) (ds : Nat) (rec : TopicRec) (scale : ℚ)
    (latA lonA : List LogVal)
    (hsel : selRec dl = some (rec, scale))
    (hlat : rec.lat = some latA) (hlon : rec.lon = some lonA)
    (hempty : strideCoords latA lonA rec.alt scale ds = []) :
    fallbackUlogToKml dl nm ds = .error DecodeErr.emptyTrack := by
  simp only [fallbackUlogToKml, hsel, decodeRec, hlat, hlon, hempty]
  rfl

/-! ## Claim C6 -/

/-- C6: whenever the `_unique_name` search returns a name, that name does
not collide with any existing one, it is the plain base name when the base
name is free, and otherwise it is `stem-i.suffix` for the smallest index
`i >= 1` whose name is free (every smaller positive index being taken), so
a repeated conversion can never overwrite an earlier output. -/
theorem uniqueName_fresh_minimal
    (existing : List String) (stem suf : String) (fuel : Nat) (r : String)
    (h : uniqueName existing stem suf fuel = some r) :
    r ∉ existing ∧
    ((stem ++ suf ∉ existing ∧ r = stem ++ suf) ∨
     (stem ++ suf ∈ existing ∧ ∃ i, 1 ≤ i ∧ r = candName stem suf i ∧
       ∀ j, 1 ≤ j → j < i → candName stem suf j ∈ existing)) := by
  rw [uniqueName] at h
  by_cases hb : stem ++ suf ∈ existing
  · rw [if_pos hb] at h
    obtain ⟨hr, k, hk, hrk, hall⟩ := uniqueLoop_spec existing stem suf fuel 1 r h
    exact ⟨hr, .inr ⟨hb, k, hk, hrk, hall⟩⟩
  · rw [if_neg hb] at h
    obtain rfl := Option.some.inj h
    exact ⟨hb, .inl ⟨hb, rfl⟩⟩

/-- C6 witness: with `a.kml` and `a-1.kml` already present, the search
returns `a-2.kml`, which is fresh and minimal. -/
theorem uniqueName_fresh_minimal_witness :
    "a-2.kml" ∉ ["a.kml", "a-1.kml"] ∧
    (("a" ++ ".kml" ∉ ["a.kml", "a-1.kml"] ∧ "a-2.kml" = "a" ++ ".kml") ∨
     ("a" ++ ".kml" ∈ ["a.kml", "a-1.kml"] ∧ ∃ i, 1 ≤ i ∧
       "a-2.kml" = candName "a" ".kml" i ∧
       ∀ j, 1 ≤ j → j < i → candName "a" ".kml" j ∈ ["a.kml", "a-1.kml"])) :=
  uniqueName_fresh_minimal ["a.kml", "a-1.kml"] "a" ".kml" 5 "a-2.kml" (by decide)

/-- C3 witness: a one-topic log with three finite samples, stride 2:
conversion succeeds with the in-memory track as the file's coordinate list,
and the track length is bounded by `ceil(3/2) = 2`. -/
theorem fallback_track_length_and_output_witness :
    fallbackUlogToKml
        [⟨"vehicle_global_position",
          ⟨some ([(1 : ℚ), 2, 3].map LogVal.fin),
           some ([(4 : ℚ), 5, 6].map LogVal.fin), none⟩⟩] "flight" 2
      = .ok (mkFallbackKml "flight"
          (strideCoords ([(1 : ℚ), 2, 3].map LogVal.fin)
            ([(4 : ℚ), 5, 6].map LogVal.fin) none 1 2)) ∧
    (strideCoords ([(1 : ℚ), 2, 3].map LogVal.fin)
        ([(4 : ℚ), 5, 6].map LogVal.fin) none 1 2).length
      ≤ ([(1 : ℚ), 2, 3].length + 2 - 1) / 2 :=
  fallback_track_length_and_output
    [⟨"vehicle_global_position",
      ⟨some ([(1 : ℚ), 2, 3].map LogVal.fin),
       some ([(4 : ℚ), 5, 6].map LogVal.fin), none⟩⟩] "flight" 2
    ⟨some ([(1 : ℚ), 2, 3].map LogVal.fin),
     some ([(4 : ℚ), 5, 6].map LogVal.fin), none⟩
    [(1 : ℚ), 2, 3] [(4 : ℚ), 5, 6] rfl rfl rfl (by decide) (by decide) (by decide)

/-- C5 witness: a log whose only topic is a GPS-position topic with a single
non-finite sample pair; every sample is filtered out and the conversion
fails with the empty-track error. -/
theorem fallback_empty_track_failure_witness :
    fallbackUlogToKml
        [⟨"vehicle_gps_position",
          ⟨some [LogVal.nonfin], some [LogVal.nonfin], none⟩⟩] "flight" 5
      = .error DecodeErr.emptyTrack :=
  fallback_empty_track_failure
    [⟨"vehicle_gps_position", ⟨some [LogVal.nonfin], some [LogVal.nonfin], none⟩⟩]
    "flight" 5 ⟨some [LogVal.nonfin], some [LogVal.nonfin], none⟩ ((10 : ℚ) ^ 7)
    [LogVal.nonfin] [LogVal.nonfin] rfl rfl rfl rfl

/-! ## Claim C7 -/

/-- C7: for a document whose first Point element carries coordinate text of
the form `lon,lat[,...]`, both extractor variants return the `(lat, lon)`
pair, i.e. order-inverted relative to the file, with no swap applied. -/
theorem kml_point_coords_order
    (root pt el : Xml) (s : String) (first : List Char)
    (restTok : List (List Char)) (lo la : List Char)
    (restParts : List (List Char)) (qla qlo : ℚ)
    (hpt : findPointElem root = some pt)
    (hel : pt.children.find? (fun e => e.tag = kmlCoordinatesTag) = some el)
    (htext : el.text = some s)
    (hne : s.data.isEmpty = false)
    (htok : splitWs s.data = first :: restTok)
    (hparts : splitChar ',' first = lo :: la :: restParts)
    (hla : pyFloatChars la = some qla)
    (hlo : pyFloatChars lo = some qlo) :
    coordsFromKmlSim root = .ok (some (qla, qlo)) ∧
    coordsFromKmlV3 root = .ok (some (qla, qlo)) := by
  have hpc : pointCoords pt = .ok (some (qla, qlo)) := by
    simp only [pointCoords, hel, htext, hne, htok, hparts, hla, hlo]
    rfl
  constructor
  · simp only [coordsFromKmlSim, hpt, hpc]
  · simp only [coordsFromKmlV3, hpt, hpc]

/-- C7 witness: a document with one Point whose coordinates text is
`"8,47,10"`; both variants return `(47, 8)`. -/
theorem kml_point_coords_order_witness :
    coordsFromKmlSim
        (.elem "kml" none
          [.elem kmlPointTag none [.elem kmlCoordinatesTag (some "8,47,10") []]])
      = .ok (some (47, 8)) ∧
    coordsFromKmlV3
        (.elem "kml" none
          [.elem kmlPointTag none [.elem kmlCoordinatesTag (some "8,47,10") []]])
      = .ok (some (47, 8)) :=
  kml_point_coords_order
    (.elem "kml" none
      [.elem kmlPointTag none [.elem kmlCoordinatesTag (some "8,47,10") []]])
    (.elem kmlPointTag none [.elem kmlCoordinatesTag (some "8,47,10") []])
    (.elem kmlCoordinatesTag (some "8,47,10") [])
    "8,47,10" "8,47,10".data [] "8".data "47".data ["10".data] 47 8
    rfl rfl rfl rfl rfl rfl rfl rfl

/-! ## Claim C8 -/

/-- C8: when a document holds no Point element, the v3 extractor scans the
whole element tree in document order and returns the `(lat, lon)` pair
parsed from the first element whose tag contains "coordinates" and whose
text splits into at least two comma-separated parts, instead of reporting
`(None, None)` at once. -/
theorem kml_fallback_scan_coords
    (root : Xml) (pre : List Xml) (e : Xml) (post : List Xml)
    (p0 p1 : List Char) (restP : List (List Char)) (qla qlo : ℚ)
    (hnopt : findPointElem root = none)
    (hiter : root.preorder = pre ++ e :: post)
    (hmiss : ∀ x ∈ pre, scanHit x = false)
    (hcond : (strContains e.tag "coordinates" && !(e.text.getD "").data.isEmpty) = true)
    (hparts : splitChar ',' (trimChars (e.text.getD "").data) = p0 :: p1 :: restP)
    (hp1 : pyFloatChars p1 = some qla)
    (hp0 : pyFloatChars p0 = some qlo) :
    coordsFromKmlV3 root = .ok (some (qla, qlo)) := by
  have hscan : scanCoordElems (e :: post) = .ok (some (qla, qlo)) := by
    simp only [scanCoordElems, hcond, hparts, hp1, hp0, if_true]
  rw [coordsFromKmlV3]
  rw [hnopt, hiter]
  rw [scanCoordElems_drop pre (e :: post) hmiss, hscan]

/-- C8 witness: a Point-free document whose second child is a bare
`coordinates` element with text `"9,46,10"`; the scan returns `(46, 9)`. -/
theorem kml_fallback_scan_coords_witness :
    coordsFromKmlV3
        (.elem "Document" none
          [.elem "name" (some "t") [], .elem "coordinates" (some "9,46,10") []])
      = .ok (some (46, 9)) :=
  kml_fallback_scan_coords
    (.elem "Document" none
      [.elem "name" (some "t") [], .elem "coordinates" (some "9,46,10") []])
    [.elem "Document" none
      [.elem "name" (some "t") [], .elem "coordinates" (some "9,46,10") []],
     .elem "name" (some "t") []]
    (.elem "coordinates" (some "9,46,10") []) []
    "9".data "46".data ["10".data] 46 9
    rfl rfl (by decide) rfl rfl rfl rfl

/-! ## Claim C9 -/

/-- C9: the altitude channel never decides whether a sample is kept: the
(lon, lat) projection of the track is the same for any two altitude
channels, and a channel whose every entry is non-finite (hence also a
missing or unparseable one) yields exactly the track of an absent altitude
channel, i.e. altitude 0 for every kept sample. -/
theorem fallback_altitude_never_discards
    (lat lon : List LogVal) (scale : ℚ) (ds : Nat)
    (altA : List LogVal) (altB : Option (List LogVal))
    (h : ∀ v ∈ altA, v = LogVal.nonfin) :
    (strideCoords lat lon (some altA) scale ds).map dropAlt
        = (strideCoords lat lon altB scale ds).map dropAlt ∧
    strideCoords lat lon (some altA) scale ds
        = strideCoords lat lon none scale ds :=
  ⟨strideAux_alt_proj lat lon (some altA) altB scale ds lat.length 0 (-(ds : ℤ)),
   strideAux_alt_none lat lon altA scale ds h lat.length 0 (-(ds : ℤ))⟩

/-- C9 witness: one finite (lat, lon) sample with a non-finite altitude
sample is kept either way, and equals the absent-altitude track. -/
theorem fallback_altitude_never_discards_witness :
    (strideCoords [LogVal.fin 1] [LogVal.fin 2] (some [LogVal.nonfin]) 1 1).map dropAlt
        = (strideCoords [LogVal.fin 1] [LogVal.fin 2] (some [LogVal.fin 7]) 1 1).map dropAlt ∧
    strideCoords [LogVal.fin 1] [LogVal.fin 2] (some [LogVal.nonfin]) 1 1
        = strideCoords [LogVal.fin 1] [LogVal.fin 2] none 1 1 :=
  fallback_altitude_never_discards [LogVal.fin 1] [LogVal.fin 2] 1 1
    [LogVal.nonfin] (some [LogVal.fin 7]) (by decide)

/-! ## Claim C10 -/

/-- C10: if the first mission item carrying both `param5` and `param6` fails
numeric conversion, the whole item scan is abandoned (items after it are
never consulted: the result does not depend on them) and extraction falls
through to `plannedHomePosition`; with no usable home position the result
is `(None, None)`, not an exception. -/
theorem plan_scan_abandoned_on_conv_failure
    (pre post : List PlanItem) (it : PlanItem) (php : Option PyVal)
    (h1 : ∀ j ∈ pre, hasBoth j = false) (h2 : hasBoth it = true)
    (h3 : convBoth it = none) :
    coordsFromPlan ⟨pre ++ it :: post, php⟩ = phpCoords php ∧
    coordsFromPlan ⟨pre ++ it :: post, none⟩ = none := by
  have hscan : scanItems (pre ++ it :: post) = some none := by
    rw [scanItems_drop pre (it :: post) h1, scanItems, if_pos h2, h3]
  constructor
  · simp only [coordsFromPlan, hscan]
  · simp only [coordsFromPlan, hscan]
    rfl

/-- C10 witness: the second item carries both fields but `param5` is the
unparseable string `"x"`; the valid third item is never consulted and the
result is the planned-home pair, or `(None, None)` without one. -/
theorem plan_scan_abandoned_on_conv_failure_witness :
    coordsFromPlan
        ⟨[⟨none, none⟩, ⟨some (.str "x"), some (.num 3)⟩,
          ⟨some (.num 1), some (.num 2)⟩], some (.arr [.num 9, .num 8])⟩
      = phpCoords (some (.arr [.num 9, .num 8])) ∧
    coordsFromPlan
        ⟨[⟨none, none⟩, ⟨some (.str "x"), some (.num 3)⟩,
          ⟨some (.num 1), some (.num 2)⟩], none⟩
      = none :=
  plan_scan_abandoned_on_conv_failure
    [⟨none, none⟩] [⟨some (.num 1), some (.num 2)⟩]
    ⟨some (.str "x"), some (.num 3)⟩ (some (.arr [.num 9, .num 8]))
    (by decide) rfl rfl
